import Mathlib

/-
Shallow embedding of the ST7789 display driver and the webm video player of
the radxa_rock5c_lite repository.

Two source files are modelled:
  * src/spi/display_st7789_v4.py  (namespace Display) -- the ST7789 class.
  * src/spi/webm_video_st7789.py  (namespace Video)   -- the video player.

Hardware side effects (GPIO level changes, SPI transfers, sleeps, resource
teardown) are modelled as traces of events of type Ev.  Both scripts send a
command byte by first driving the DC line low and then issuing one SPI write
of that single byte, and send data by first driving DC high and then issuing
the SPI write(s) of the payload; the event traces record exactly that.
Each Ev.write event carries the bytes of one underlying writebytes call,
tagged with the mode (false for a command byte group, true for data), so a
single write never mixes command and data bytes, exactly as in the source.
-/

namespace ST7789V

/-- Hardware effect events: DC and RST line levels, SPI byte-group writes
(tagged with the mode the bytes were sent under: false = command byte group,
true = data byte group), sleeps in milliseconds, and resource teardown
steps (GPIO release via the with-block, ffmpeg termination, SPI close, and
the per-line request closes of the ST7789 class). -/
inductive Ev where
  | setDC : Bool → Ev
  | setRST : Bool → Ev
  | write : Bool → List Nat → Ev
  | sleepMs : Nat → Ev
  | releaseGpio : Ev
  | stopSource : Ev
  | closeSpi : Ev
  | closeDcLine : Ev
  | closeRstLine : Ev
deriving DecidableEq

namespace Display

/-- Module constant WIDTH, display_st7789_v4.py line 28. -/
def WIDTH : Nat := 320

/-- Module constant HEIGHT, display_st7789_v4.py line 29. -/
def HEIGHT : Nat := 240

/-- ST7789.command (lines 278-291): set DC low, then one SPI write of the
single command byte. -/
def command (c : Nat) : List Ev :=
  [Ev.setDC false, Ev.write false [c]]

/-- ST7789.data (lines 293-315): set DC high, then one SPI write of the
payload bytes (an int argument becomes a one-byte list; bytes, bytearray and
list arguments are sent as given). -/
def data (d : List Nat) : List Ev :=
  [Ev.setDC true, Ev.write true d]

/-- ST7789.reset (lines 317-334): RST high, sleep 50 ms, RST low, sleep
50 ms, RST high, sleep 150 ms.  No command or data transfer occurs. -/
def reset : List Ev :=
  [Ev.setRST true, Ev.sleepMs 50, Ev.setRST false, Ev.sleepMs 50,
   Ev.setRST true, Ev.sleepMs 150]

/-- ST7789.init_display (lines 336-382): SWRESET (0x01) then a 150 ms sleep,
SLPOUT (0x11) then a 500 ms sleep, MADCTL (0x36) with data 0x60, COLMOD
(0x3A) with data 0x55, INVON (0x21), NORON (0x13) then a 10 ms sleep, DISPON
(0x29) then a 100 ms sleep. -/
def init_display : List Ev :=
  command 0x01 ++ [Ev.sleepMs 150] ++
  command 0x11 ++ [Ev.sleepMs 500] ++
  command 0x36 ++ data [0x60] ++
  command 0x3A ++ data [0x55] ++
  command 0x21 ++
  command 0x13 ++ [Ev.sleepMs 10] ++
  command 0x29 ++ [Ev.sleepMs 100]

/-- The per-coordinate clamp used by ST7789.set_window (lines 397-401):
v is replaced by max(0, min(v, bound - 1)), for bound the panel width or
height. -/
def clip (v bound : Int) : Int :=
  max 0 (min v (bound - 1))

/-- Big-endian 2-byte encoding of one (clamped, hence nonnegative)
coordinate, as built inline in set_window:  [(v >> 8) & 0xFF, v & 0xFF]. -/
def encodePair (v : Nat) : List Nat :=
  [(v >>> 8) &&& 0xFF, v &&& 0xFF]

/-- ST7789.set_window (lines 384-418) with the width and height of the
driver instance made explicit: clamp the four coordinates to the panel
bounds, send CASET (0x2A) with the column payload, RASET (0x2B) with the row
payload, then RAMWR (0x2C).  The clamped values are nonnegative, so their
Python byte arithmetic coincides with Nat arithmetic after toNat. -/
def set_window (w h x0 y0 x1 y1 : Int) : List Ev :=
  command 0x2A ++
  data (encodePair (clip x0 w).toNat ++ encodePair (clip x1 w).toNat) ++
  command 0x2B ++
  data (encodePair (clip y0 h).toNat ++ encodePair (clip y1 h).toNat) ++
  command 0x2C

/-- The RGB888 to RGB565 conversion of ST7789.display_image (lines 438-450),
in numpy uint16 arithmetic (hence the mod 2^16 on the shifted fields):
((r & 0xF8) << 8) | ((g & 0xFC) << 3) | ((b & 0xF8) >> 3). -/
def rgb565 (r g b : Nat) : Nat :=
  (((r &&& 0xF8) <<< 8) % 65536) ||| (((g &&& 0xFC) <<< 3) % 65536) |||
    ((b &&& 0xF8) >>> 3)

/-- The two wire bytes of one 16-bit pixel after rgb565.byteswap().tobytes()
(line 457) on the little-endian target: high byte first. -/
def pixelBytes (v : Nat) : List Nat :=
  [(v >>> 8) % 256, v % 256]

/-- The full byte stream of one frame as built by display_image: the pixels
in row-major order, each contributing its two wire bytes. -/
def frameBytes (frame : List (Nat × Nat × Nat)) : List Nat :=
  (frame.map (fun p => pixelBytes (rgb565 p.1 p.2.1 p.2.2))).flatten

/-- ST7789.display_image (lines 420-463): set the window to the full screen
(set_window with its default arguments 0, 0, width-1, height-1) and send the
converted pixel bytes as one data call.  The frame argument stands for the
image after the resize to width x height. -/
def display_image (w h : Nat) (frame : List (Nat × Nat × Nat)) : List Ev :=
  set_window (w : Int) (h : Int) 0 0 ((w : Int) - 1) ((h : Int) - 1) ++
  data (frameBytes frame)

/-- The three mutable resource handles of an ST7789 instance: the SPI
device, the DC line request and the RST line request; true means the handle
is present (not None). -/
structure DriverState where
  spi : Bool
  dcReq : Bool
  rstReq : Bool
deriving DecidableEq

/-- ST7789.close (lines 238-276): if the SPI device and the DC request are
still present, send DISPOFF (0x28) and sleep 50 ms; then close the DC
request, the RST request and the SPI device, each only if present, and set
all three handles to None.  Every step is wrapped in try/except in the
source, so no error propagates; the returned trace lists the performed
steps. -/
def close (s : DriverState) : DriverState × List Ev :=
  (⟨false, false, false⟩,
    (if s.spi && s.dcReq then command 0x28 ++ [Ev.sleepMs 50] else []) ++
    (if s.dcReq then [Ev.closeDcLine] else []) ++
    (if s.rstReq then [Ev.closeRstLine] else []) ++
    (if s.spi then [Ev.closeSpi] else []))

end Display

namespace Video

/-- Module constant WIDTH, webm_video_st7789.py line 30. -/
def WIDTH : Nat := 320

/-- Module constant HEIGHT, line 31. -/
def HEIGHT : Nat := 240

/-- Module constant ROTATION, line 37. -/
def ROTATION : Nat := 0x60

/-- Module constant SPI_CHUNK_SIZE, line 43. -/
def SPI_CHUNK_SIZE : Nat := 4096

/-- Module constant TARGET_FPS, line 46. -/
def TARGET_FPS : Nat := 25

/-- The chunk slices data[i:i+SPI_CHUNK_SIZE] for i in
range(0, len(data), SPI_CHUNK_SIZE), produced by the loop of spi_write
(lines 60-61).  The fuel argument bounds the number of loop iterations;
since every iteration consumes at least one byte, fuel = length of the list
is always enough. -/
def chunksGo : Nat → List Nat → List (List Nat)
  | _, [] => []
  | 0, _ :: _ => []
  | fuel + 1, x :: xs =>
      ((x :: xs).take SPI_CHUNK_SIZE) :: chunksGo fuel ((x :: xs).drop SPI_CHUNK_SIZE)

/-- The list of chunks spi_write cuts a payload into. -/
def chunks (l : List Nat) : List (List Nat) :=
  chunksGo l.length l

/-- Whether a Python function call returned normally or propagated an
exception to its caller. -/
inductive PyOutcome where
  | normalReturn : PyOutcome
  | raised : PyOutcome
deriving DecidableEq

/-- Caller-visible result of spi_write: how the call returned, the chunks
that were handed to spi.writebytes, and whether the except branch printed an
error line to stderr. -/
structure SpiResult where
  outcome : PyOutcome
  issued : List (List Nat)
  errorLogged : Bool
deriving DecidableEq

/-- The chunk loop of spi_write (lines 59-63): issue the chunks in order;
fail i tells whether the writebytes call for chunk index i raises.  The
first raising chunk ends the loop (the exception jumps to the except
branch); the chunks already written stay written. -/
def spiGo (fail : Nat → Bool) : Nat → List (List Nat) → List (List Nat) × Bool
  | _, [] => ([], false)
  | i, c :: rest =>
      if fail i then ([], true)
      else (c :: (spiGo fail (i + 1) rest).1, (spiGo fail (i + 1) rest).2)

/-- spi_write (lines 53-64): chunk the payload, write the chunks in order,
and on any exception print an error to stderr and fall through -- the
function always returns None to its caller, it never re-raises. -/
def spi_write (fail : Nat → Bool) (d : List Nat) : SpiResult :=
  ⟨PyOutcome.normalReturn, (spiGo fail 0 (chunks d)).1, (spiGo fail 0 (chunks d)).2⟩

/-- write_command (lines 66-69): DC low, then spi_write of the one command
byte (one writebytes call per chunk; a single byte is a single chunk). -/
def write_command (c : Nat) : List Ev :=
  Ev.setDC false :: (chunks [c]).map (Ev.write false)

/-- write_data (lines 71-84): DC high, then spi_write of the payload bytes,
one writebytes call per chunk. -/
def write_data (d : List Nat) : List Ev :=
  Ev.setDC true :: (chunks d).map (Ev.write true)

/-- reset_display (lines 86-93): RST low, sleep 100 ms, RST high, sleep
100 ms.  Only two level writes, and no initial high hold. -/
def reset_display : List Ev :=
  [Ev.setRST false, Ev.sleepMs 100, Ev.setRST true, Ev.sleepMs 100]

/-- init_display (lines 95-119): hardware reset, SLPOUT (0x11) then a
120 ms sleep, COLMOD (0x3A) with data 0x55, MADCTL (0x36) with the ROTATION
byte, DISPON (0x29) then a 100 ms sleep.  The inversion commands are
commented out in the source; there is no SWRESET and no NORON. -/
def init_display : List Ev :=
  reset_display ++
  write_command 0x11 ++ [Ev.sleepMs 120] ++
  write_command 0x3A ++ write_data [0x55] ++
  write_command 0x36 ++ write_data [ROTATION] ++
  write_command 0x29 ++ [Ev.sleepMs 100]

/-- set_address_window (lines 121-127): CASET (0x2A) with the raw column
payload, RASET (0x2B) with the raw row payload, then RAMWR (0x2C).  No
clamping of the coordinates takes place. -/
def set_address_window (x0 y0 x1 y1 : Nat) : List Ev :=
  write_command 0x2A ++
  write_data [(x0 >>> 8) &&& 0xFF, x0 &&& 0xFF, (x1 >>> 8) &&& 0xFF, x1 &&& 0xFF] ++
  write_command 0x2B ++
  write_data [(y0 >>> 8) &&& 0xFF, y0 &&& 0xFF, (y1 >>> 8) &&& 0xFF, y1 &&& 0xFF] ++
  write_command 0x2C

/-- The RGB888 to RGB565 conversion of display_frame_rgb565 (lines 138-141),
in numpy uint16 arithmetic: ((r >> 3) << 11) | ((g >> 2) << 5) | (b >> 3). -/
def rgb565_webm (r g b : Nat) : Nat :=
  (((r >>> 3) <<< 11) % 65536) ||| (((g >>> 2) <<< 5) % 65536) ||| (b >>> 3)

/-- The two wire bytes of one pixel after astype with the big-endian u2
dtype and tobytes (line 144): high byte first. -/
def pixelBytesBE (v : Nat) : List Nat :=
  [(v >>> 8) % 256, v % 256]

/-- The full byte stream of one frame as built by display_frame_rgb565. -/
def frameBytes (frame : List (Nat × Nat × Nat)) : List Nat :=
  (frame.map (fun p => pixelBytesBE (rgb565_webm p.1 p.2.1 p.2.2))).flatten

/-- display_frame_rgb565 (lines 129-150): set the address window to the full
screen and send the converted frame bytes as one write_data call. -/
def display_frame_rgb565 (frame : List (Nat × Nat × Nat)) : List Ev :=
  set_address_window 0 0 (WIDTH - 1) (HEIGHT - 1) ++
  write_data (frameBytes frame)

/-- frame_interval = 1.0 / TARGET_FPS (line 192); real-valued timing is
modelled over the rationals. -/
def frame_interval : ℚ :=
  1 / (TARGET_FPS : ℚ)

/-- Observable scheduling actions of one playback-loop iteration. -/
inductive PlayEv where
  | displayFrame : PlayEv
  | sleepFor : ℚ → PlayEv
deriving DecidableEq

/-- One iteration of the playback loop (lines 246-291) for a frame whose
processing (read, convert, display) took the given elapsed time: display the
frame, then sleep for frame_interval - elapsed if that is positive,
otherwise do not sleep.  The iteration carries no state from earlier
iterations. -/
def loop_iteration (elapsed : ℚ) : List PlayEv :=
  if frame_interval - elapsed > 0 then
    [PlayEv.displayFrame, PlayEv.sleepFor (frame_interval - elapsed)]
  else
    [PlayEv.displayFrame]

/-- The playback loop over the per-iteration processing times of the frames
that were read in full before the stream ended. -/
def playback_loop (elapsedTimes : List ℚ) : List PlayEv :=
  (elapsedTimes.map loop_iteration).flatten

/-- The slept duration contributed by one scheduling action. -/
def sleepAmount : PlayEv → ℚ
  | PlayEv.displayFrame => 0
  | PlayEv.sleepFor t => t

/-- Total time slept in one loop iteration with the given elapsed time. -/
def iterationSleep (elapsed : ℚ) : ℚ :=
  ((loop_iteration elapsed).map sleepAmount).sum

/-- Teardown of play_video on leaving the playback loop: the gpiod
with-block (lines 219-223) releases the GPIO lines while the exception or
the normal fall-through leaves the block, before the finally block (lines
324-352) terminates the ffmpeg process and closes the SPI device.  The
loopEvents argument stands for whatever the loop body emitted before the
exit. -/
def play_video (loopEvents : List Ev) : List Ev :=
  loopEvents ++ [Ev.releaseGpio] ++ [Ev.stopSource, Ev.closeSpi]

/-- The guarded ffmpeg termination of the finally block (lines 329-342):
terminate only if poll() shows the process still running; afterwards it is
not running.  All failure handling inside is caught, nothing propagates. -/
def ffmpegStop (running : Bool) : Bool × List Ev :=
  if running then (false, [Ev.stopSource]) else (false, [])

end Video

/-- Classifier for the three teardown steps of play_video. -/
def isTeardown (e : Ev) : Bool :=
  match e with
  | Ev.releaseGpio => true
  | Ev.stopSource => true
  | Ev.closeSpi => true
  | _ => false

/-- Fold over a trace tracking the current DC level; true iff every SPI
write happens while the DC line sits at the level matching the mode of the
bytes being written (low = command, high = data). -/
def dcMatches : Bool → List Ev → Bool
  | _, [] => true
  | _, Ev.setDC b :: rest => dcMatches b rest
  | cur, Ev.write m _ :: rest => (m == cur) && dcMatches cur rest
  | cur, Ev.setRST _ :: rest => dcMatches cur rest
  | cur, Ev.sleepMs _ :: rest => dcMatches cur rest
  | cur, Ev.releaseGpio :: rest => dcMatches cur rest
  | cur, Ev.stopSource :: rest => dcMatches cur rest
  | cur, Ev.closeSpi :: rest => dcMatches cur rest
  | cur, Ev.closeDcLine :: rest => dcMatches cur rest
  | cur, Ev.closeRstLine :: rest => dcMatches cur rest

/-- True iff every DC level change is immediately followed by an SPI write
of the matching mode: the level is never set and then left unused, and no
other action is interposed between setting the level and the first write of
the byte group it was set for. -/
def pairedDC : List Ev → Bool
  | [] => true
  | Ev.setDC b :: Ev.write m bs :: rest => (m == b) && pairedDC (Ev.write m bs :: rest)
  | [Ev.setDC _] => false
  | Ev.setDC _ :: Ev.setDC _ :: _ => false
  | Ev.setDC _ :: Ev.setRST _ :: _ => false
  | Ev.setDC _ :: Ev.sleepMs _ :: _ => false
  | Ev.setDC _ :: Ev.releaseGpio :: _ => false
  | Ev.setDC _ :: Ev.stopSource :: _ => false
  | Ev.setDC _ :: Ev.closeSpi :: _ => false
  | Ev.setDC _ :: Ev.closeDcLine :: _ => false
  | Ev.setDC _ :: Ev.closeRstLine :: _ => false
  | Ev.setRST _ :: rest => pairedDC rest
  | Ev.write _ _ :: rest => pairedDC rest
  | Ev.sleepMs _ :: rest => pairedDC rest
  | Ev.releaseGpio :: rest => pairedDC rest
  | Ev.stopSource :: rest => pairedDC rest
  | Ev.closeSpi :: rest => pairedDC rest
  | Ev.closeDcLine :: rest => pairedDC rest
  | Ev.closeRstLine :: rest => pairedDC rest

/-- The sequence of levels written to the RST line along a trace. -/
def rstLevels (t : List Ev) : List Bool :=
  t.filterMap (fun e =>
    match e with
    | Ev.setRST b => some b
    | _ => none)

/-- The sequence of sleep durations (ms) along a trace. -/
def sleepsIn (t : List Ev) : List Nat :=
  t.filterMap (fun e =>
    match e with
    | Ev.sleepMs n => some n
    | _ => none)

/-- Number of SPI write events (command or data) in a trace. -/
def writeCount (t : List Ev) : Nat :=
  (t.filterMap (fun e =>
    match e with
    | Ev.write m bs => some (m, bs)
    | _ => none)).length

/-- All command bytes of a trace, in wire order. -/
def commandBytes (t : List Ev) : List Nat :=
  (t.filterMap (fun e =>
    match e with
    | Ev.write false bs => some bs
    | _ => none)).flatten

/-- All data bytes of a trace, in wire order. -/
def dataBytes (t : List Ev) : List Nat :=
  (t.filterMap (fun e =>
    match e with
    | Ev.write true bs => some bs
    | _ => none)).flatten

/-- Number of frames displayed along a playback trace. -/
def displayCount (t : List Video.PlayEv) : Nat :=
  t.count Video.PlayEv.displayFrame

/-! Helper lemmas. -/

theorem and_f8_shl8_lt (r : Nat) : (r &&& 0xF8) <<< 8 < 65536 := by
  have h : r &&& 0xF8 ≤ 0xF8 := Nat.and_le_right
  have h2 : (r &&& 0xF8) <<< 8 = (r &&& 0xF8) * 256 := by
    rw [Nat.shiftLeft_eq]
  omega

theorem and_fc_shl3_lt (g : Nat) : (g &&& 0xFC) <<< 3 < 65536 := by
  have h : g &&& 0xFC ≤ 0xFC := Nat.and_le_right
  have h2 : (g &&& 0xFC) <<< 3 = (g &&& 0xFC) * 8 := by
    rw [Nat.shiftLeft_eq]
  omega

theorem and_f8_shr3_lt (b : Nat) : (b &&& 0xF8) >>> 3 < 65536 := by
  have h : b &&& 0xF8 ≤ 0xF8 := Nat.and_le_right
  have h2 : (b &&& 0xF8) >>> 3 = (b &&& 0xF8) / 8 := by
    rw [Nat.shiftRight_eq_div_pow]
  omega

theorem rgb565_eq_formula (r g b : Nat) :
    Display.rgb565 r g b =
      ((r &&& 0xF8) <<< 8) ||| ((g &&& 0xFC) <<< 3) ||| ((b &&& 0xF8) >>> 3) := by
  unfold Display.rgb565
  rw [Nat.mod_eq_of_lt (and_f8_shl8_lt r), Nat.mod_eq_of_lt (and_fc_shl3_lt g)]

theorem rgb565_lt (r g b : Nat) : Display.rgb565 r g b < 65536 := by
  rw [rgb565_eq_formula]
  have h65536 : (65536 : Nat) = 2 ^ 16 := by norm_num
  rw [h65536]
  exact Nat.or_lt_two_pow
    (Nat.or_lt_two_pow (by rw [← h65536]; exact and_f8_shl8_lt r)
      (by rw [← h65536]; exact and_fc_shl3_lt g))
    (by rw [← h65536]; exact and_f8_shr3_lt b)

/-! Claim C1. -/

/-- C2: the pixel conversion of display_image is the stated pure function of
the three 8-bit channels (the numpy uint16 wrap never fires), the value fits
in 16 bits, each pixel is emitted high byte first, and the two saturated
example triples map to 0xFFFF and 0x0000. -/
theorem c2_color_conversion (r g b : Nat) :
    Display.rgb565 r g b =
      ((r &&& 0xF8) <<< 8) ||| ((g &&& 0xFC) <<< 3) ||| ((b &&& 0xF8) >>> 3) ∧
    Display.rgb565 r g b < 65536 ∧
    Display.pixelBytes (Display.rgb565 r g b) =
      [Display.rgb565 r g b / 256, Display.rgb565 r g b % 256] ∧
    Display.rgb565 0xF8 0xFC 0xF8 = 0xFFFF ∧
    Display.rgb565 0 0 0 = 0 := by
  refine ⟨rgb565_eq_formula r g b, rgb565_lt r g b, ?_, by decide, by decide⟩
  unfold Display.pixelBytes
  have hlt := rgb565_lt r g b
  have hshr : Display.rgb565 r g b >>> 8 = Display.rgb565 r g b / 256 := by
    rw [Nat.shiftRight_eq_div_pow]
  rw [hshr]
  have : Display.rgb565 r g b / 256 < 256 := by omega
  rw [Nat.mod_eq_of_lt this]

/-! Claim C4. -/

/-- C4, counterexample: reset_display in the video player performs two level
writes on the reset line (low then high), not the three (high, low, high)
the claim promises for every call of the hardware reset operation. -/
theorem c4_counterexample :
    rstLevels Video.reset_display = [false, true] ∧
    rstLevels Video.reset_display ≠ [true, false, true] := by
  constructor
  · decide
  · decide

/-- C4, amended: ST7789.reset performs exactly three level writes on the
reset line, high (held 50 ms), low (held 50 ms), high (held 150 ms), with no
command or data transfer in between; reset_display of the video player
performs exactly two level writes, low (held 100 ms) then high (held
100 ms), also with no transfer in between. -/
theorem c4_reset_sequences :
    rstLevels Display.reset = [true, false, true] ∧
    sleepsIn Display.reset = [50, 50, 150] ∧
    writeCount Display.reset = 0 ∧
    rstLevels Video.reset_display = [false, true] ∧
    sleepsIn Video.reset_display = [100, 100] ∧
    writeCount Video.reset_display = 0 := by
  decide

/-! Claim C5. -/

/-- C5, counterexample: the claim fixes the init order as pixel-format
(COLMOD, 0x3A) before the orientation byte (MADCTL, 0x36), but
ST7789.init_display sends MADCTL before COLMOD; moreover the video player
init sequence contains no software reset command (0x01) at all. -/
theorem c5_counterexample :
    commandBytes Display.init_display ≠
      [0x01, 0x11, 0x3A, 0x36, 0x21, 0x13, 0x29] ∧
    ¬ (0x01 ∈ commandBytes Video.init_display) := by
  constructor
  · decide
  · decide

/-- C5, amended: ST7789.init_display sends, in order, SWRESET (then 150 ms),
SLPOUT (then 500 ms), MADCTL with 0x60, COLMOD with 0x55, INVON, NORON (then
10 ms), DISPON (then 100 ms) -- the orientation byte precedes the
pixel-format set; the video player init sends, after its 100/100 ms reset,
SLPOUT (then only 120 ms), COLMOD with 0x55, MADCTL with 0x60, DISPON (then
100 ms), with no software reset, no inversion toggle and no
normal-display-mode-on. -/
theorem c5_init_sequences :
    commandBytes Display.init_display =
      [0x01, 0x11, 0x36, 0x3A, 0x21, 0x13, 0x29] ∧
    dataBytes Display.init_display = [0x60, 0x55] ∧
    sleepsIn Display.init_display = [150, 500, 10, 100] ∧
    commandBytes Video.init_display = [0x11, 0x3A, 0x36, 0x29] ∧
    dataBytes Video.init_display = [0x55, 0x60] ∧
    sleepsIn Video.init_display = [100, 100, 120, 100] := by
  decide

/-! Claim C6. -/

/-- C6, counterexample: the claim orders teardown as Frame Source stop, then
GPIO release, then transport close, but on loop exit the gpiod with-block
releases the GPIO lines while control leaves the block, before the finally
block terminates ffmpeg and closes SPI: the teardown steps of play_video
come in the order release, stop, close, not stop, release, close. -/
theorem c6_counterexample :
    (Video.play_video []).filter isTeardown =
      [Ev.releaseGpio, Ev.stopSource, Ev.closeSpi] ∧
    (Video.play_video []).filter isTeardown ≠
      [Ev.stopSource, Ev.releaseGpio, Ev.closeSpi] := by
  constructor
  · decide
  · decide

/-- C6, amended: whenever the playback loop exits, teardown performs exactly
one release of the GPIO lines (by the with-block exit), then exactly one
stop of the Frame Source process, then exactly one close of the serial
transport, in that order. -/
theorem c6_teardown_order (loopEvents : List Ev)
    (h : ∀ e ∈ loopEvents, isTeardown e = false) :
    (Video.play_video loopEvents).filter isTeardown =
      [Ev.releaseGpio, Ev.stopSource, Ev.closeSpi] := by
  unfold Video.play_video
  rw [List.filter_append, List.filter_append]
  have hnil : loopEvents.filter isTeardown = [] := by
    rw [List.filter_eq_nil_iff]
    intro a ha
    simp [h a ha]
  rw [hnil]
  decide

/-- C6, witness for the amended theorem with an empty loop body. -/
theorem c6_teardown_order_witness :
    (Video.play_video []).filter isTeardown =
      [Ev.releaseGpio, Ev.stopSource, Ev.closeSpi] :=
  c6_teardown_order [] (by intro e he; exact absurd he (List.not_mem_nil e))

/-! Claim C7. -/

theorem chunksGo_flatten :
    ∀ (fuel : Nat) (l : List Nat), l.length ≤ fuel →
      (Video.chunksGo fuel l).flatten = l := by
  intro fuel
  induction fuel with
  | zero =>
      intro l hl
      have : l = [] := List.eq_nil_of_length_eq_zero (by omega)
      subst this
      rfl
  | succ n ih =>
      intro l hl
      cases l with
      | nil => rfl
      | cons x xs =>
          rw [Video.chunksGo]
          rw [List.flatten_cons]
          rw [ih ((x :: xs).drop Video.SPI_CHUNK_SIZE)
            (by simp [Video.SPI_CHUNK_SIZE]; simp at hl; omega)]
          exact List.take_append_drop _ _

theorem chunksGo_sizes :
    ∀ (fuel : Nat) (l : List Nat) (c : List Nat),
      c ∈ Video.chunksGo fuel l → c.length ≤ Video.SPI_CHUNK_SIZE := by
  intro fuel
  induction fuel with
  | zero =>
      intro l c hc
      cases l with
      | nil => exact absurd hc (List.not_mem_nil c)
      | cons x xs => exact absurd hc (List.not_mem_nil c)
  | succ n ih =>
      intro l c hc
      cases l with
      | nil => exact absurd hc (List.not_mem_nil c)
      | cons x xs =>
          rw [Video.chunksGo] at hc
          rcases List.mem_cons.mp hc with h1 | h2
          · subst h1
            rw [List.length_take]
            omega
          · exact ih _ _ h2

theorem spiGo_spec (fail : Nat → Bool) :
    ∀ (cs : List (List Nat)) (i : Nat),
      (∃ t, (Video.spiGo fail i cs).1 ++ t = cs) ∧
      ((Video.spiGo fail i cs).2 = false → (Video.spiGo fail i cs).1 = cs) ∧
      ((Video.spiGo fail i cs).2 = true →
        (Video.spiGo fail i cs).1.length < cs.length) := by
  intro cs
  induction cs with
  | nil =>
      intro i
      refine ⟨⟨[], rfl⟩, fun _ => rfl, fun h => ?_⟩
      simp [Video.spiGo] at h
  | cons c rest ih =>
      intro i
      by_cases hf : fail i = true
      · refine ⟨⟨c :: rest, by simp [Video.spiGo, hf]⟩, ?_, ?_⟩
        · intro h
          simp [Video.spiGo, hf] at h
        · intro _
          simp [Video.spiGo, hf]
      · obtain ⟨⟨t, ht⟩, h2, h3⟩ := ih (i + 1)
        rw [Bool.not_eq_true] at hf
        refine ⟨⟨t, by simp [Video.spiGo, hf]; exact ht⟩, ?_, ?_⟩
        · intro h
          simp [Video.spiGo, hf] at h ⊢
          exact h2 h
        · intro h
          simp [Video.spiGo, hf] at h ⊢
          have := h3 h
          omega

/-- C7, counterexample: the claim says a chunk failure surfaces a
TransportError to the caller, but spi_write catches the exception inside the
function and returns normally; with a transport that fails on the very first
chunk of the payload [1, 2], the caller still sees a normal return (and the
error is only logged). -/
theorem c7_counterexample :
    (Video.spi_write (fun _ => true) [1, 2]).outcome =
      Video.PyOutcome.normalReturn ∧
    (Video.spi_write (fun _ => true) [1, 2]).errorLogged = true ∧
    (Video.spi_write (fun _ => true) [1, 2]).issued = [] := by
  constructor
  · rfl
  · constructor
    · decide
    · decide

/-- C7, amended: spi_write splits every payload into consecutive chunks of
at most 4096 bytes that reassemble to the payload, issues them in original
order (the issued chunks always form an initial segment of the chunk list),
issues every chunk exactly when no writebytes call fails, stops before the
end of the chunk list when one fails, does not retry -- but the failure is
caught and logged inside spi_write, which always returns normally to its
caller instead of surfacing a TransportError. -/
theorem c7_spi_write_chunking (fail : Nat → Bool) (d : List Nat) :
    (Video.spi_write fail d).outcome = Video.PyOutcome.normalReturn ∧
    (∀ c ∈ Video.chunks d, c.length ≤ Video.SPI_CHUNK_SIZE) ∧
    (Video.chunks d).flatten = d ∧
    (∃ t, (Video.spi_write fail d).issued ++ t = Video.chunks d) ∧
    ((Video.spi_write fail d).errorLogged = false →
      (Video.spi_write fail d).issued = Video.chunks d) ∧
    ((Video.spi_write fail d).errorLogged = true →
      (Video.spi_write fail d).issued.length < (Video.chunks d).length) := by
  obtain ⟨h1, h2, h3⟩ := spiGo_spec fail (Video.chunks d) 0
  exact ⟨rfl, fun c hc => chunksGo_sizes _ _ c hc,
    chunksGo_flatten _ _ (le_refl _), h1, h2, h3⟩

/-- C7, witness for the amended theorem: a transport failing at the first
chunk of the payload [1, 2] aborts before the single chunk is issued, and
the caller still sees a normal return. -/
theorem c7_spi_write_chunking_witness :
    (Video.spi_write (fun _ => true) [1, 2]).outcome =
      Video.PyOutcome.normalReturn ∧
    (Video.spi_write (fun _ => true) [1, 2]).issued.length <
      (Video.chunks [1, 2]).length :=
  ⟨(c7_spi_write_chunking (fun _ => true) [1, 2]).1,
    (c7_spi_write_chunking (fun _ => true) [1, 2]).2.2.2.2.2 (by decide)⟩

/-! Claim C9. -/

/-- C9: the teardown operations are idempotent.  A second ST7789.close
directly after a first one leaves the (already fully cleared) handle state
unchanged and performs no further action, and a second run of the guarded
ffmpeg termination is a no-op; in the source every step of both is wrapped
in try/except, so the second calls also raise nothing. -/
theorem c9_teardown_idempotent (s : Display.DriverState) (r : Bool) :
    Display.close (Display.close s).1 = ((Display.close s).1, ([] : List Ev)) ∧
    Video.ffmpegStop (Video.ffmpegStop r).1 = ((Video.ffmpegStop r).1, ([] : List Ev)) := by
  constructor
  · simp [Display.close]
  · cases r
    · simp [Video.ffmpegStop]
    · simp [Video.ffmpegStop]

/-! Claim C8. -/

theorem iterationSleep_eq (e : ℚ) :
    Video.iterationSleep e = max 0 (Video.frame_interval - e) := by
  unfold Video.iterationSleep Video.loop_iteration
  by_cases hp : Video.frame_interval - e > 0
  · simp only [hp, if_true, List.map_cons, List.map_nil, Video.sleepAmount]
    rw [max_eq_right (le_of_lt hp)]
    simp
  · simp only [hp, if_false, List.map_cons, List.map_nil, Video.sleepAmount]
    rw [max_eq_left (by linarith [not_lt.mp hp])]
    simp

theorem playback_loop_cons (e : ℚ) (es : List ℚ) :
    Video.playback_loop (e :: es) =
      Video.loop_iteration e ++ Video.playback_loop es := by
  simp [Video.playback_loop]

theorem playback_loop_displayCount (es : List ℚ) :
    displayCount (Video.playback_loop es) = es.length := by
  induction es with
  | nil => rfl
  | cons e es ih =>
      rw [playback_loop_cons]
      unfold displayCount at ih ⊢
      rw [List.count_append, ih]
      have h1 : (Video.loop_iteration e).count Video.PlayEv.displayFrame = 1 := by
        unfold Video.loop_iteration
        by_cases hp : Video.frame_interval - e > 0
        · simp [hp, List.count_cons]
        · simp [hp, List.count_cons]
      rw [h1]
      simp [List.length_cons]
      omega

/-- C8: in every iteration of the playback loop the scheduler sleeps
exactly max(0, frame_interval - elapsed) for the processing time elapsed of
that iteration alone, with frame_interval = 1/25 for the fixed
TARGET_FPS = 25; every frame that was read in full is displayed (no frame
dropping), and the loop over a list of iterations is the concatenation of
independent per-iteration traces, so no state (and in particular no
accumulated drift) crosses iteration boundaries. -/
theorem c8_frame_pacing (elapsedTimes es2 : List ℚ) (e : ℚ) :
    Video.frame_interval = 1 / 25 ∧
    Video.iterationSleep e = max 0 (Video.frame_interval - e) ∧
    displayCount (Video.playback_loop elapsedTimes) = elapsedTimes.length ∧
    Video.playback_loop (elapsedTimes ++ es2) =
      Video.playback_loop elapsedTimes ++ Video.playback_loop es2 := by
  refine ⟨?_, iterationSleep_eq e, playback_loop_displayCount elapsedTimes, ?_⟩
  · norm_num [Video.frame_interval, Video.TARGET_FPS]
  · simp [Video.playback_loop]

/-! Claim C10. -/

set_option maxRecDepth 4000 in
theorem chanR : ∀ x : Fin 256, (x.1 &&& 0xF8) <<< 8 = (x.1 >>> 3) <<< 11 := by
  decide

set_option maxRecDepth 4000 in
theorem chanG : ∀ x : Fin 256, (x.1 &&& 0xFC) <<< 3 = (x.1 >>> 2) <<< 5 := by
  decide

set_option maxRecDepth 4000 in
theorem chanB : ∀ x : Fin 256, (x.1 &&& 0xF8) >>> 3 = x.1 >>> 3 := by
  decide

theorem shr3_shl11_lt (r : Nat) (hr : r < 256) : (r >>> 3) <<< 11 < 65536 := by
  have h1 : r >>> 3 = r / 8 := by
    rw [Nat.shiftRight_eq_div_pow]
  have h2 : (r >>> 3) <<< 11 = (r >>> 3) * 2048 := by
    rw [Nat.shiftLeft_eq]
  omega

theorem shr2_shl5_lt (g : Nat) (hg : g < 256) : (g >>> 2) <<< 5 < 65536 := by
  have h1 : g >>> 2 = g / 4 := by
    rw [Nat.shiftRight_eq_div_pow]
  have h2 : (g >>> 2) <<< 5 = (g >>> 2) * 32 := by
    rw [Nat.shiftLeft_eq]
  omega

theorem rgb565_webm_eq_formula (r g b : Nat) (hr : r < 256) (hg : g < 256) :
    Video.rgb565_webm r g b =
      ((r >>> 3) <<< 11) ||| ((g >>> 2) <<< 5) ||| (b >>> 3) := by
  unfold Video.rgb565_webm
  rw [Nat.mod_eq_of_lt (shr3_shl11_lt r hr), Nat.mod_eq_of_lt (shr2_shl5_lt g hg)]

theorem rgb565_eq_webm (r g b : Nat) (hr : r < 256) (hg : g < 256)
    (hb : b < 256) : Display.rgb565 r g b = Video.rgb565_webm r g b := by
  rw [rgb565_eq_formula, rgb565_webm_eq_formula r g b hr hg,
    chanR ⟨r, hr⟩, chanG ⟨g, hg⟩, chanB ⟨b, hb⟩]

theorem pixelBytes_eq_pixelBytesBE : Display.pixelBytes = Video.pixelBytesBE :=
  rfl

theorem frameBytes_eq_frameBytes (frame : List (Nat × Nat × Nat))
    (h : ∀ p ∈ frame, p.1 < 256 ∧ p.2.1 < 256 ∧ p.2.2 < 256) :
    Display.frameBytes frame = Video.frameBytes frame := by
  unfold Display.frameBytes Video.frameBytes
  apply congrArg List.flatten
  apply List.map_congr_left
  intro p hp
  obtain ⟨h1, h2, h3⟩ := h p hp
  rw [rgb565_eq_webm p.1 p.2.1 p.2.2 h1 h2 h3]
  rfl

/-- C10: for every 8-bit channel triple, the masked-shift conversion of
display_st7789_v4 and the truncate-then-shift conversion of
webm_video_st7789 produce the identical 16-bit wire value, and the two
display paths emit identical big-endian pixel byte streams for the same
source frame. -/
theorem c10_conversion_equivalence (r g b : Nat)
    (frame : List (Nat × Nat × Nat)) (hr : r < 256) (hg : g < 256)
    (hb : b < 256)
    (hframe : ∀ p ∈ frame, p.1 < 256 ∧ p.2.1 < 256 ∧ p.2.2 < 256) :
    Display.rgb565 r g b = Video.rgb565_webm r g b ∧
    Display.frameBytes frame = Video.frameBytes frame :=
  ⟨rgb565_eq_webm r g b hr hg hb, frameBytes_eq_frameBytes frame hframe⟩

/-- C10, witness at the triple (248, 128, 7) and the two-pixel frame of one
white and one black pixel. -/
theorem c10_conversion_equivalence_witness :
    Display.rgb565 248 128 7 = Video.rgb565_webm 248 128 7 ∧
    Display.frameBytes [(255, 255, 255), (0, 0, 0)] =
      Video.frameBytes [(255, 255, 255), (0, 0, 0)] :=
  c10_conversion_equivalence 248 128 7 [(255, 255, 255), (0, 0, 0)]
    (by decide) (by decide) (by decide) (by decide)

/-! Claim C3. -/

theorem chunksGo_nil (fuel : Nat) : Video.chunksGo fuel [] = [] := by
  cases fuel
  · rfl
  · rfl

theorem chunks_small (l : List Nat) (h1 : l ≠ [])
    (h2 : l.length ≤ Video.SPI_CHUNK_SIZE) : Video.chunks l = [l] := by
  cases l with
  | nil => exact absurd rfl h1
  | cons x xs =>
      unfold Video.chunks
      simp only [List.length_cons]
      rw [show Video.chunksGo (xs.length + 1) (x :: xs) =
        ((x :: xs).take Video.SPI_CHUNK_SIZE) ::
          Video.chunksGo xs.length ((x :: xs).drop Video.SPI_CHUNK_SIZE) from rfl]
      rw [List.take_of_length_le h2, List.drop_eq_nil_of_le h2, chunksGo_nil]

theorem write_command_eq (c : Nat) :
    Video.write_command c = [Ev.setDC false, Ev.write false [c]] := by
  unfold Video.write_command
  rw [chunks_small [c] (by simp) (by simp [Video.SPI_CHUNK_SIZE])]
  rfl

theorem write_data_small (d : List Nat) (h1 : d ≠ [])
    (h2 : d.length ≤ Video.SPI_CHUNK_SIZE) :
    Video.write_data d = [Ev.setDC true, Ev.write true d] := by
  unfold Video.write_data
  rw [chunks_small d h1 h2]
  rfl

theorem dcMatches_writes (m : Bool) (cs : List (List Nat)) (rest : List Ev) :
    dcMatches m (cs.map (Ev.write m) ++ rest) = dcMatches m rest := by
  induction cs with
  | nil => rfl
  | cons c cs ih => simp [dcMatches, ih]

theorem pairedDC_writes (m : Bool) (cs : List (List Nat)) (rest : List Ev) :
    pairedDC (cs.map (Ev.write m) ++ rest) = pairedDC rest := by
  induction cs with
  | nil => rfl
  | cons c cs ih => simp [pairedDC, ih]

theorem dcMatches_command (cur : Bool) (c : Nat) (rest : List Ev) :
    dcMatches cur (Display.command c ++ rest) = dcMatches false rest := by
  simp [Display.command, dcMatches]

theorem dcMatches_data (cur : Bool) (d : List Nat) (rest : List Ev) :
    dcMatches cur (Display.data d ++ rest) = dcMatches true rest := by
  simp [Display.data, dcMatches]

theorem pairedDC_command (c : Nat) (rest : List Ev) :
    pairedDC (Display.command c ++ rest) = pairedDC rest := by
  simp [Display.command, pairedDC]

theorem pairedDC_data (d : List Nat) (rest : List Ev) :
    pairedDC (Display.data d ++ rest) = pairedDC rest := by
  simp [Display.data, pairedDC]

theorem dcMatches_command_nil (cur : Bool) (c : Nat) :
    dcMatches cur (Display.command c) = true := by
  simp [Display.command, dcMatches]

theorem dcMatches_data_nil (cur : Bool) (d : List Nat) :
    dcMatches cur (Display.data d) = true := by
  simp [Display.data, dcMatches]

theorem pairedDC_data_nil (d : List Nat) : pairedDC (Display.data d) = true := by
  simp [Display.data, pairedDC]

theorem dcMatches_write_command (cur : Bool) (c : Nat) (rest : List Ev) :
    dcMatches cur (Video.write_command c ++ rest) = dcMatches false rest := by
  rw [write_command_eq]
  simp [dcMatches]

theorem dcMatches_write_data (cur : Bool) (d : List Nat) (rest : List Ev) :
    dcMatches cur (Video.write_data d ++ rest) = dcMatches true rest := by
  unfold Video.write_data
  rw [List.cons_append]
  rw [show dcMatches cur
      (Ev.setDC true :: ((Video.chunks d).map (Ev.write true) ++ rest)) =
    dcMatches true ((Video.chunks d).map (Ev.write true) ++ rest) from rfl]
  exact dcMatches_writes true (Video.chunks d) rest

theorem pairedDC_write_command (c : Nat) (rest : List Ev) :
    pairedDC (Video.write_command c ++ rest) = pairedDC rest := by
  rw [write_command_eq]
  simp [pairedDC]

theorem pairedDC_write_data (d : List Nat) (rest : List Ev) (h : d ≠ []) :
    pairedDC (Video.write_data d ++ rest) = pairedDC rest := by
  cases d with
  | nil => exact absurd rfl h
  | cons x xs =>
      unfold Video.write_data Video.chunks
      simp only [List.length_cons]
      rw [show Video.chunksGo (xs.length + 1) (x :: xs) =
        ((x :: xs).take Video.SPI_CHUNK_SIZE) ::
          Video.chunksGo xs.length ((x :: xs).drop Video.SPI_CHUNK_SIZE) from rfl]
      simp only [List.map_cons, List.cons_append, pairedDC, beq_self_eq_true,
        Bool.true_and]
      exact pairedDC_writes true _ rest

theorem dcMatches_write_command_nil (cur : Bool) (c : Nat) :
    dcMatches cur (Video.write_command c) = true := by
  rw [write_command_eq]
  simp [dcMatches]

theorem dcMatches_write_data_nil (cur : Bool) (d : List Nat) :
    dcMatches cur (Video.write_data d) = true := by
  have h := dcMatches_write_data cur d []
  rw [List.append_nil] at h
  rw [h]
  rfl

theorem pairedDC_write_command_nil (c : Nat) :
    pairedDC (Video.write_command c) = true := by
  rw [write_command_eq]
  simp [pairedDC]

theorem pairedDC_write_data_nil (d : List Nat) (h : d ≠ []) :
    pairedDC (Video.write_data d) = true := by
  have h2 := pairedDC_write_data d [] h
  rw [List.append_nil] at h2
  rw [h2]
  rfl

theorem frameBytes_ne_nil (frame : List (Nat × Nat × Nat)) (h : frame ≠ []) :
    Video.frameBytes frame ≠ [] := by
  cases frame with
  | nil => exact absurd rfl h
  | cons p rest => simp [Video.frameBytes, Video.pixelBytesBE]

/-- C3: along the traces of the init sequence, of set_window and of
display_image of the ST7789 class, and of the init sequence,
set_address_window and display_frame_rgb565 of the video player (for any
coordinates and any frame, a nonempty frame on the player path, where an
empty payload issues no write), every SPI write happens with the DC line at
the level matching the mode of its bytes, and every DC level change is
immediately followed by the first write of the byte group it was set for.
Each write event carries bytes of a single mode by construction, exactly as
each underlying writebytes call does, so no transfer mixes command and data
bytes across a mode change. -/
theorem c3_mode_line_discipline (wi hi x0 y0 x1 y1 : Int) (cw ch : Nat)
    (a0 b0 a1 b1 : Nat) (frame vframe : List (Nat × Nat × Nat))
    (hv : vframe ≠ []) :
    (dcMatches false Display.init_display = true ∧
      pairedDC Display.init_display = true) ∧
    (dcMatches false (Display.set_window wi hi x0 y0 x1 y1) = true ∧
      pairedDC (Display.set_window wi hi x0 y0 x1 y1) = true) ∧
    (dcMatches false (Display.display_image cw ch frame) = true ∧
      pairedDC (Display.display_image cw ch frame) = true) ∧
    (dcMatches false Video.init_display = true ∧
      pairedDC Video.init_display = true) ∧
    (dcMatches false (Video.set_address_window a0 b0 a1 b1) = true ∧
      pairedDC (Video.set_address_window a0 b0 a1 b1) = true) ∧
    (dcMatches false (Video.display_frame_rgb565 vframe) = true ∧
      pairedDC (Video.display_frame_rgb565 vframe) = true) := by
  refine ⟨⟨by decide, by decide⟩, ⟨?_, ?_⟩, ⟨?_, ?_⟩, ⟨by decide, by decide⟩,
    ⟨?_, ?_⟩, ⟨?_, ?_⟩⟩
  · unfold Display.set_window
    simp only [List.append_assoc]
    rw [dcMatches_command, dcMatches_data, dcMatches_command, dcMatches_data,
      dcMatches_command_nil]
  · unfold Display.set_window
    simp only [List.append_assoc]
    rw [pairedDC_command, pairedDC_data, pairedDC_command, pairedDC_data]
    decide
  · unfold Display.display_image Display.set_window
    simp only [List.append_assoc]
    rw [dcMatches_command, dcMatches_data, dcMatches_command, dcMatches_data,
      dcMatches_command, dcMatches_data_nil]
  · unfold Display.display_image Display.set_window
    simp only [List.append_assoc]
    rw [pairedDC_command, pairedDC_data, pairedDC_command, pairedDC_data,
      pairedDC_command, pairedDC_data_nil]
  · unfold Video.set_address_window
    simp only [List.append_assoc]
    rw [dcMatches_write_command, dcMatches_write_data, dcMatches_write_command,
      dcMatches_write_data, dcMatches_write_command_nil]
  · unfold Video.set_address_window
    simp only [List.append_assoc]
    rw [pairedDC_write_command, pairedDC_write_data _ _ (by simp),
      pairedDC_write_command, pairedDC_write_data _ _ (by simp),
      pairedDC_write_command_nil]
  · unfold Video.display_frame_rgb565 Video.set_address_window
    simp only [List.append_assoc]
    rw [dcMatches_write_command, dcMatches_write_data, dcMatches_write_command,
      dcMatches_write_data, dcMatches_write_command, dcMatches_write_data_nil]
  · unfold Video.display_frame_rgb565 Video.set_address_window
    simp only [List.append_assoc]
    rw [pairedDC_write_command, pairedDC_write_data _ _ (by simp),
      pairedDC_write_command, pairedDC_write_data _ _ (by simp),
      pairedDC_write_command, pairedDC_write_data_nil _ (frameBytes_ne_nil vframe hv)]

/-- C3, witness: the discipline at the one-pixel frame on the video player
path, by the theorem applied at concrete coordinates and frames. -/
theorem c3_mode_line_discipline_witness :
    dcMatches false (Video.display_frame_rgb565 [(1, 2, 3)]) = true ∧
    pairedDC (Video.display_frame_rgb565 [(1, 2, 3)]) = true :=
  (c3_mode_line_discipline 320 240 0 0 319 239 320 240 0 0 319 239 [(0, 0, 0)]
    [(1, 2, 3)] (by decide)).2.2.2.2.2

end ST7789V
